import Mathlib

/-!
# Verification of the pgebus event bus (shallow embedding)

This file embeds the parts of the `pgebus` / `pg_event_bus` Python sources
needed to settle the claims about them:

* `src/pg_event_bus/base.py` — the producer helper `publish_event`;
* `src/pg_event_bus/routing.py` — `EventRouter` (registration, inclusion,
  dispatch);
* `src/pgebus/config.py` — `EventSystemConfig` (pydantic field validation);
* `src/pgebus/system.py` — the `EventSystem` facade (`__init__`, `start`,
  `stop`, `get_queue_size`, `get_worker_count`).

The ORM session, the event row and the listener/pool/queue components whose
modules are not part of the core sources are modelled from the specification
(each such definition says so in its doc comment).  Payload and endpoint
values are opaque to the core, so they appear here as type parameters.
-/

/-! ## Producer side: `pg_event_bus/base.py` -/

/-- Modelled from the spec: the `source` column of the event row, an
enumerated origin tag carried through and not interpreted by the core
(`EventSource` from the missing `models.py`). -/
inductive EventSource where
  | internal
  | external
deriving DecidableEq, Repr

/-- Modelled from the spec: the persistent event row (`Event` from the
missing `models.py`).  Only the columns written by `publish_event` are
modelled; `id` is `none` until the session flush assigns it.  Timestamps are
abstracted to `Nat`, the payload is an opaque type parameter. -/
structure Event (P : Type) where
  type : String
  payload : P
  source : EventSource
  run_at : Option Nat
  id : Option Nat
deriving DecidableEq, Repr

/-- Modelled from the spec and standard ORM semantics: the slice of an
`AsyncSession` that `publish_event` touches.  `pending` holds rows added but
not yet flushed, `rows` the flushed rows, `next_id` the next id the database
would assign, and `notifications` the `NOTIFY` commands issued through the
session, as (channel, textual payload) pairs. -/
structure DBSession (P : Type) where
  pending : List (Event P)
  rows : List (Event P)
  next_id : Nat
  notifications : List (String × String)
deriving DecidableEq, Repr

/-- `session.add(event)`: stage a row for insertion. -/
def DBSession.add {P : Type} (s : DBSession P) (e : Event P) : DBSession P :=
  { s with pending := s.pending ++ [e] }

/-- `await session.flush()`: every pending row is written and receives the
next available id, in the order it was added. -/
def DBSession.flush {P : Type} (s : DBSession P) : DBSession P :=
  { s with
      rows := s.rows ++ s.pending.enum.map (fun ie =>
        { ie.2 with id := some (s.next_id + ie.1) })
      pending := []
      next_id := s.next_id + s.pending.length }

/-- `await session.execute(text(f"NOTIFY \x7bchannel\x7d, :event_id"), ...)`:
record the NOTIFY issued on the session. -/
def DBSession.notify {P : Type} (s : DBSession P) (channel : String)
    (payload : String) : DBSession P :=
  { s with notifications := s.notifications ++ [(channel, payload)] }

/-- `publish_event` from `src/pg_event_bus/base.py`: build the row from the
arguments, `session.add` it, flush to obtain its id, issue
`NOTIFY channel, str(event.id)`, and return the (now flushed) row together
with the session.  The id the flush assigns to this row is
`next_id + pending.length`, its position in the flush order. -/
def publish_event {P : Type} (session : DBSession P) (event_type : String)
    (payload : P) (source : EventSource) (channel : String)
    (run_at : Option Nat := none) : Event P × DBSession P :=
  let event : Event P :=
    { type := event_type, payload := payload, source := source,
      run_at := run_at, id := none }
  let s1 := session.add event
  let assigned_id := session.next_id + session.pending.length
  let s2 := s1.flush
  let flushed : Event P := { event with id := some assigned_id }
  let s3 := s2.notify channel (toString assigned_id)
  (flushed, s3)

/-! ## Routing: `pg_event_bus/routing.py` -/

/-- `DBEvent` from `src/pg_event_bus/base.py`: a dict with a `"type"` key and
a `"payload"` key; the payload is opaque to the router. -/
structure DBEvent (P : Type) where
  type : String
  payload : P
deriving DecidableEq, Repr

/-- `EventRouter` from `src/pg_event_bus/routing.py`.  `routePrefix` models
the `prefix` attribute (renamed because `prefix` is a Lean keyword);
`event_handlers` is the registration-ordered list of (path, endpoint) pairs.
Endpoints are opaque, so they appear as a type parameter. -/
structure EventRouter (E : Type) where
  routePrefix : String
  event_handlers : List (String × E)
deriving DecidableEq, Repr

/-- `EventRouter.add_event_route`: append (path, endpoint) to the handler
list; the router's own prefix is not consulted. -/
def EventRouter.add_event_route {E : Type} (r : EventRouter E) (path : String)
    (endpoint : E) : EventRouter E :=
  { r with event_handlers := r.event_handlers ++ [(path, endpoint)] }

/-- `EventRouter.on(path)`: the decorator registers the endpoint via
`add_event_route` and returns the endpoint unchanged. -/
def EventRouter.on {E : Type} (r : EventRouter E) (path : String)
    (endpoint : E) : EventRouter E × E :=
  (r.add_event_route path endpoint, endpoint)

/-- The path computed inside `EventRouter.include_router` for one child
route: collect the non-empty strings among the extra prefix, the child
router's prefix and the route's path (Python truthiness on strings), then
`".".join` them. -/
def joinedPath (extraPrefix childPrefix path : String) : String :=
  let parts : List String :=
    (if extraPrefix ≠ "" then [extraPrefix] else []) ++
    (if childPrefix ≠ "" then [childPrefix] else []) ++
    (if path ≠ "" then [path] else [])
  String.intercalate "." parts

/-- `EventRouter.include_router(router, prefix)`: for each (path, endpoint)
of the child, in order, `add_event_route` the re-prefixed path with the same
endpoint. -/
def EventRouter.include_router {E : Type} (self : EventRouter E)
    (router : EventRouter E) (extraPrefix : String := "") : EventRouter E :=
  router.event_handlers.foldl
    (fun acc pe =>
      acc.add_event_route (joinedPath extraPrefix router.routePrefix pe.1) pe.2)
    self

/-- The loop body of `EventRouter.handle`: walk the handler list; at the
first pair whose path equals the event type, invoke its endpoint and return
`true`; if none matches return `false`.  The second component records the
endpoints actually invoked, in order. -/
def handleFrom {E : Type} : List (String × E) → String → Bool × List E
  | [], _ => (false, [])
  | (path, endpoint) :: rest, event_type =>
      if path = event_type then (true, [endpoint])
      else handleFrom rest event_type

/-- `EventRouter.handle(session, event)`: dispatch on `event["type"]`.  The
session passed to endpoints is irrelevant to matching, so it is omitted. -/
def EventRouter.handle {E P : Type} (r : EventRouter E) (event : DBEvent P) :
    Bool × List E :=
  handleFrom r.event_handlers event.type

/-! ## Configuration: `pgebus/config.py` -/

/-- `EventSystemConfig` from `src/pgebus/config.py`, as validated data.
Integer fields are `Int` (pydantic accepts any int before range checks) and
the float fields are rationals. -/
structure EventSystemConfig where
  channel : String
  n_workers : Int
  queue_maxsize : Int
  max_retries : Int
  poll_interval : ℚ
  shutdown_wait_timeout : ℚ
  shutdown_wait_for_completion : Bool
deriving DecidableEq, Repr

/-- Constructing an `EventSystemConfig`: pydantic checks every `Field`
constraint of `src/pgebus/config.py` (`n_workers` ge 1 le 100,
`queue_maxsize` ge 0, `max_retries` ge 0 le 10, `poll_interval` ge 0.1
le 60.0, `shutdown_wait_timeout` ge 0.0) and raises a validation error —
here `none` — exactly when one fails. -/
def mkEventSystemConfig (channel : String) (n_workers : Int)
    (queue_maxsize : Int) (max_retries : Int) (poll_interval : ℚ)
    (shutdown_wait_timeout : ℚ) (shutdown_wait_for_completion : Bool) :
    Option EventSystemConfig :=
  if 1 ≤ n_workers ∧ n_workers ≤ 100 ∧
     0 ≤ queue_maxsize ∧
     0 ≤ max_retries ∧ max_retries ≤ 10 ∧
     1/10 ≤ poll_interval ∧ poll_interval ≤ 60 ∧
     0 ≤ shutdown_wait_timeout then
    some
      { channel := channel, n_workers := n_workers,
        queue_maxsize := queue_maxsize, max_retries := max_retries,
        poll_interval := poll_interval,
        shutdown_wait_timeout := shutdown_wait_timeout,
        shutdown_wait_for_completion := shutdown_wait_for_completion }
  else none

/-- The field defaults of `EventSystemConfig` in `src/pgebus/config.py`. -/
def defaultEventSystemConfig : Option EventSystemConfig :=
  mkEventSystemConfig "events" 5 1000 3 1 30 true

/-! ## System facade: `pgebus/system.py`

`EventSystem` wires the listener, queue and worker pool.  The modules
`listener.py`, `pool.py`, `queue.py` and `db.py` are not part of the core
sources, so their observable behaviour (the state each holds, and that
`listener.stop` is idempotent and `pool.stop` / the session close do nothing
on already-stopped components) is modelled from the specification; the
control flow of `__init__`, `start`, `stop`, `get_queue_size` and
`get_worker_count` follows `src/pgebus/system.py` line by line. -/

/-- Modelled from the spec: the hand-off queue (`queue.py`), a bounded
in-memory channel of event ids with `qsize` and `close`. -/
structure EventQueue where
  items : List Nat
  maxsize : Nat
  closed : Bool
deriving DecidableEq, Repr

/-- `EventQueue.qsize()`: number of pending ids. -/
def EventQueue.qsize (q : EventQueue) : Nat :=
  q.items.length

/-- Modelled from the spec: the notification listener's state (`listener.py`);
only whether its receive loop is running matters here. -/
structure ListenerState where
  running : Bool
deriving DecidableEq, Repr

/-- Modelled from the spec: the worker pool's state (`pool.py`): the
configured worker count, whether it is running, and how many workers are
currently live (what `get_worker_count` reports). -/
structure PoolState where
  n_workers : Nat
  running : Bool
  worker_count : Nat
deriving DecidableEq, Repr

/-- The externally visible steps `start` / `stop` perform, in order. -/
inductive Effect where
  | ensureSchema (schema_name : String)
  | openListenerConn
  | listenerStart
  | listenerStop
  | waitUntilEmpty (timeout : Option ℚ)
  | poolStart (n : Nat)
  | poolStop
  | sessionClose
deriving DecidableEq, Repr

/-- The state of an `EventSystem` together with the database facts it can
observe (whether its schema exists, whether the dedicated listener connection
is open). -/
structure EventSystem where
  channel : String
  n_workers : Nat
  queue_maxsize : Nat
  max_retries : Nat
  poll_interval : ℚ
  schema_name : String
  db_schema : Bool
  session_open : Bool
  event_queue : Option EventQueue
  listener : Option ListenerState
  worker_pool : Option PoolState
  connection : Option Bool
deriving DecidableEq, Repr

/-- `EventSystem.__init__`: copy the settings, create the session manager
and the event queue, and leave `listener`, `worker_pool` and `_connection`
unset (`None`). -/
def EventSystem.init (channel : String) (n_workers queue_maxsize max_retries : Nat)
    (poll_interval : ℚ) (schema_name : String) (db_schema : Bool) : EventSystem :=
  { channel := channel, n_workers := n_workers,
    queue_maxsize := queue_maxsize, max_retries := max_retries,
    poll_interval := poll_interval, schema_name := schema_name,
    db_schema := db_schema, session_open := true,
    event_queue := some { items := [], maxsize := queue_maxsize, closed := false },
    listener := none, worker_pool := none, connection := none }

/-- `EventSystem.start()`: execute `CreateSchema(..., if_not_exists=True)`
(the schema exists afterwards; a pre-existing one is untouched and raises
nothing), open the dedicated listener connection, create and start a fresh
`EventListener`, then create and start a fresh `EventWorkerPool` whose
workers all come up.  The method has no already-started guard and no failure
path of its own, so it always returns `ok`; errors could only come from the
environment (database unreachable), which is outside the model. -/
def EventSystem.start (s : EventSystem) : Except String (EventSystem × List Effect) :=
  Except.ok
    ({ s with
        db_schema := true,
        connection := some true,
        listener := some { running := true },
        worker_pool := some
          { n_workers := s.n_workers, running := true,
            worker_count := s.n_workers } },
     [Effect.ensureSchema s.schema_name, Effect.openListenerConn,
      Effect.listenerStart, Effect.poolStart s.n_workers])

/-- `EventSystem.stop(wait_for_completion, timeout)`:

1. `if self.listener: await self.listener.stop()` — the listener cancels its
   loop, unlistens and closes the dedicated connection; idempotent, so a
   listener that is not running does nothing (modelled from the spec).
2. `if wait_for_completion and self.worker_pool:` wait up to `timeout` for
   the queue to drain (a pure wait; no state change).
3. `if self.worker_pool: await self.worker_pool.stop()` — close the queue
   and tear the workers down; on an already-stopped pool there are no
   workers to signal, so nothing happens (modelled from the spec).
4. `await self.session_manager.close()` unconditionally.

`stop` never resets `listener` / `worker_pool` to `None`, exactly as the
source. -/
def EventSystem.stop (s : EventSystem) (wait_for_completion : Bool := true)
    (timeout : Option ℚ := some 30) : EventSystem × List Effect :=
  let s1t1 : EventSystem × List Effect :=
    match s.listener with
    | some l =>
        if l.running then
          ({ s with listener := some { running := false },
                    connection := s.connection.map (fun _ => false) },
           [Effect.listenerStop])
        else (s, [])
    | none => (s, [])
  let s1 := s1t1.1
  let t2 : List Effect :=
    if wait_for_completion && s1.worker_pool.isSome then
      [Effect.waitUntilEmpty timeout]
    else []
  let s2t3 : EventSystem × List Effect :=
    match s1.worker_pool with
    | some p =>
        if p.running then
          ({ s1 with
              worker_pool := some { p with running := false, worker_count := 0 },
              event_queue := s1.event_queue.map (fun q => { q with closed := true }) },
           [Effect.poolStop])
        else (s1, [])
    | none => (s1, [])
  let s3 : EventSystem := { s2t3.1 with session_open := false }
  (s3, s1t1.2 ++ t2 ++ s2t3.2 ++ [Effect.sessionClose])

/-- `EventSystem.get_queue_size()`: `self.event_queue.qsize()`; defined only
when the queue attribute is set (in Python, `None` here would raise). -/
def EventSystem.get_queue_size (s : EventSystem) : Option Nat :=
  s.event_queue.map EventQueue.qsize

/-- `EventSystem.get_worker_count()`: the pool's live worker count when the
pool exists, else `0`. -/
def EventSystem.get_worker_count (s : EventSystem) : Nat :=
  match s.worker_pool with
  | some p => p.worker_count
  | none => 0

/-- Two consecutive calls of `start()`, propagating an error of the first. -/
def EventSystem.startTwice (s : EventSystem) :
    Except String (EventSystem × List Effect) :=
  match s.start with
  | Except.ok (s1, _) => s1.start
  | Except.error e => Except.error e

/-- A concrete freshly-constructed system, used to evaluate the lifecycle
operations on explicit inputs. -/
def sysExample : EventSystem :=
  EventSystem.init "events" 5 1000 3 1 "pgebus" false

/-- A concrete started system: `sysExample` after a successful `start()`. -/
def sysStarted : EventSystem :=
  match sysExample.start with
  | Except.ok (s, _) => s
  | Except.error _ => sysExample

/-! ## Helper lemmas -/

/-- The dispatch loop succeeds exactly when some registered pair's path
equals the event type. -/
theorem handleFrom_fst_iff {E : Type} (l : List (String × E)) (t : String) :
    (handleFrom l t).1 = true ↔ ∃ pe ∈ l, pe.1 = t := by
  induction l with
  | nil => simp [handleFrom]
  | cons hd tl ih =>
      obtain ⟨p, e⟩ := hd
      by_cases h : p = t
      · subst h
        simp [handleFrom]
      · simp [handleFrom, h, ih]

/-- When no registered pair's path equals the event type, the dispatch loop
returns `false` without invoking anything. -/
theorem handleFrom_no_match {E : Type} (l : List (String × E)) (t : String)
    (h : ∀ pe ∈ l, pe.1 ≠ t) : handleFrom l t = (false, []) := by
  induction l with
  | nil => rfl
  | cons hd tl ih =>
      obtain ⟨p, e⟩ := hd
      have hp : p ≠ t := h (p, e) (List.mem_cons_self _ _)
      simp only [handleFrom, if_neg hp]
      exact ih (fun pe hpe => h pe (List.mem_cons_of_mem _ hpe))

/-- The endpoints the dispatch loop invokes are exactly the earliest
registered pair whose path equals the event type (or none at all). -/
theorem handleFrom_snd_eq_find {E : Type} (l : List (String × E)) (t : String) :
    (handleFrom l t).2 =
      ((l.find? (fun pe => pe.1 == t)).map Prod.snd).toList := by
  induction l with
  | nil => rfl
  | cons hd tl ih =>
      obtain ⟨p, e⟩ := hd
      by_cases h : p = t
      · subst h
        simp [handleFrom, List.find?]
      · have hb : (p == t) = false := beq_eq_false_iff_ne.mpr h
        simp [handleFrom, List.find?, h, hb, ih]

/-- The path built inside `include_router` is the dot-join of the non-empty
strings among extra prefix, child prefix and route path. -/
theorem joinedPath_eq_filter (a b c : String) :
    joinedPath a b c =
      String.intercalate "." ([a, b, c].filter (fun x => x ≠ "")) := by
  by_cases ha : a = "" <;> by_cases hb : b = "" <;> by_cases hc : c = "" <;>
    simp [joinedPath, List.filter, ha, hb, hc]

/-- Folding `add_event_route` over a list appends the transformed pairs. -/
theorem foldl_add_event_route {E : Type} (l : List (String × E))
    (acc : EventRouter E) (f : String → String) :
    (l.foldl (fun a pe => a.add_event_route (f pe.1) pe.2) acc).event_handlers =
      acc.event_handlers ++ l.map (fun pe => (f pe.1, pe.2)) := by
  induction l generalizing acc with
  | nil => simp
  | cons hd tl ih =>
      rw [List.foldl_cons, ih]
      simp [EventRouter.add_event_route, List.append_assoc]

/-! ## Claims -/

/-- C1: for every session with nothing pending, event type, payload, source,
channel and optional `run_at`, `publish_event` inserts one new `Event` row
carrying those values, flushes so the row receives the database's next id,
issues exactly one NOTIFY on the given channel whose payload is the textual
form of that id (no payload data), and returns the inserted row. -/
theorem publish_event_inserts_and_notifies {P : Type} (session : DBSession P)
    (event_type : String) (payload : P) (source : EventSource)
    (channel : String) (run_at : Option Nat) (h : session.pending = []) :
    (publish_event session event_type payload source channel run_at).1 =
      { type := event_type, payload := payload, source := source,
        run_at := run_at, id := some session.next_id } ∧
    (publish_event session event_type payload source channel run_at).2.rows =
      session.rows ++
        [(publish_event session event_type payload source channel run_at).1] ∧
    (publish_event session event_type payload source channel run_at).2.pending
      = [] ∧
    (publish_event session event_type payload source channel run_at).2.notifications
      = session.notifications ++ [(channel, toString session.next_id)] ∧
    (publish_event session event_type payload source channel run_at).2.next_id
      = session.next_id + 1 := by
  simp [publish_event, DBSession.add, DBSession.flush, DBSession.notify, h,
    List.enum, List.enumFrom]

/-- C1 witness: publishing on a concrete fresh session. -/
theorem publish_event_inserts_and_notifies_witness :
    (publish_event (⟨[], [], 7, []⟩ : DBSession Nat) "a.b" 1
        EventSource.internal "events" none).1 =
      { type := "a.b", payload := 1, source := EventSource.internal,
        run_at := none, id := some 7 } :=
  (publish_event_inserts_and_notifies ⟨[], [], 7, []⟩ "a.b" 1
    EventSource.internal "events" none rfl).1

/-- C2: `EventRouter.handle` returns `true` iff some registered route's path
equals the event's type; when no registered path equals the type it returns
`false` and invokes no endpoint. -/
theorem handle_true_iff_matched {E P : Type} (r : EventRouter E)
    (event : DBEvent P) :
    ((r.handle event).1 = true ↔
      ∃ pe ∈ r.event_handlers, pe.1 = event.type) ∧
    ((∀ pe ∈ r.event_handlers, pe.1 ≠ event.type) →
      r.handle event = (false, [])) :=
  ⟨handleFrom_fst_iff r.event_handlers event.type,
   fun h => handleFrom_no_match r.event_handlers event.type h⟩

/-- C2 witness: a concrete router with one route that does not match. -/
theorem handle_true_iff_matched_witness :
    EventRouter.handle { routePrefix := "", event_handlers := [("a", (1 : Nat))] }
      ({ type := "b", payload := () } : DBEvent Unit) = (false, []) :=
  (handle_true_iff_matched
      { routePrefix := "", event_handlers := [("a", (1 : Nat))] }
      ({ type := "b", payload := () } : DBEvent Unit)).2 (by decide)

/-- C3: `include_router(child, prefix)` appends to the parent, for each
(path, endpoint) registered on the child, a route whose path is the
dot-joined concatenation of the non-empty strings among the extra prefix,
the child's own prefix and the original path, bound to the same endpoint. -/
theorem include_router_appends_prefixed {E : Type}
    (parent child : EventRouter E) (extraPrefix : String) :
    (parent.include_router child extraPrefix).event_handlers =
      parent.event_handlers ++ child.event_handlers.map (fun pe =>
        (String.intercalate "."
            ([extraPrefix, child.routePrefix, pe.1].filter (fun x => x ≠ "")),
         pe.2)) := by
  unfold EventRouter.include_router
  rw [foldl_add_event_route]
  simp [joinedPath_eq_filter]

/-- C4 counterexample: on a concrete system, a second `start()` after a
successful first one does not raise — `start` has no already-started guard,
so it succeeds again (re-running the whole startup sequence). -/
theorem start_twice_succeeds :
    (sysExample.startTwice).isOk = true ∧ (sysExample.start).isOk = true :=
  ⟨rfl, rfl⟩

/-- C4 (amended): calling `start()` a second time after a successful start
does not raise (it unconditionally re-runs the startup sequence, replacing
listener, pool and connection); calling `stop()` a second time after a
completed stop is a no-op — the system and database state are left unchanged
by the second stop. -/
theorem start_not_guarded_stop_idempotent (s : EventSystem) (wfc wfc' : Bool)
    (t t' : Option ℚ) :
    (s.start).isOk = true ∧
    (((s.stop wfc t).1).stop wfc' t').1 = (s.stop wfc t).1 := by
  refine ⟨rfl, ?_⟩
  obtain ⟨ch, nw, qm, mr, pi, sn, ds, so, eq, l, wp, conn⟩ := s
  rcases l with _ | ⟨_ | _⟩ <;> rcases wp with _ | ⟨pn, _ | _, pc⟩ <;> rfl

/-- C5: stopping a started system performs its shutdown effects in order:
listener stop first, then (only when `wait_for_completion` is true) the
bounded wait for the queue to drain, then the pool stop, and finally the
session-factory close; in particular the listener is never stopped after the
pool. -/
theorem stop_effect_order (s : EventSystem) (wfc : Bool) (t : Option ℚ)
    (hl : s.listener = some { running := true }) (p : PoolState)
    (hp : s.worker_pool = some p) (hr : p.running = true) :
    (s.stop wfc t).2 =
      [Effect.listenerStop] ++
      (if wfc then [Effect.waitUntilEmpty t] else []) ++
      [Effect.poolStop, Effect.sessionClose] := by
  obtain ⟨ch, nw, qm, mr, pi, sn, ds, so, eq, l, wp, conn⟩ := s
  obtain ⟨pn, pr, pc⟩ := p
  simp only at hl hp
  subst hl hp
  cases hr
  cases wfc <;> rfl

/-- C5 witness: stopping the concrete started system with
`wait_for_completion = true` and a 30 second timeout. -/
theorem stop_effect_order_witness :
    (sysStarted.stop true (some 30)).2 =
      [Effect.listenerStop] ++
      (if true then [Effect.waitUntilEmpty (some 30)] else []) ++
      [Effect.poolStop, Effect.sessionClose] :=
  stop_effect_order sysStarted true (some 30) rfl
    { n_workers := 5, running := true, worker_count := 5 } rfl rfl

/-- C6: `start()` performs its effects in order: the idempotent
create-if-not-exists of the configured schema, then opening the dedicated
listener connection, then starting the listener, then starting the worker
pool; afterwards the schema exists, a pre-existing schema is left as it was,
and no error is raised. -/
theorem start_effect_order (s : EventSystem) :
    s.start = Except.ok
      ({ s with
          db_schema := true,
          connection := some true,
          listener := some { running := true },
          worker_pool := some
            { n_workers := s.n_workers, running := true,
              worker_count := s.n_workers } },
       [Effect.ensureSchema s.schema_name, Effect.openListenerConn,
        Effect.listenerStart, Effect.poolStart s.n_workers]) ∧
    ∀ s2 tr, s.start = Except.ok (s2, tr) →
      s2.db_schema = true ∧ (s.db_schema = true → s2.db_schema = s.db_schema) := by
  refine ⟨rfl, ?_⟩
  intro s2 tr h
  simp only [EventSystem.start, Except.ok.injEq, Prod.mk.injEq] at h
  obtain ⟨hs, -⟩ := h
  subst hs
  exact ⟨rfl, fun hd => hd.symm⟩

/-- C6 witness: starting the concrete already-started system, whose schema
already exists, succeeds and leaves the schema flag as it was. -/
theorem start_effect_order_witness :
    sysStarted.db_schema = true ∧
    (sysStarted.db_schema = true → sysStarted.db_schema = sysStarted.db_schema) :=
  (start_effect_order sysStarted).2 sysStarted
    [Effect.ensureSchema "pgebus", Effect.openListenerConn,
     Effect.listenerStart, Effect.poolStart 5] rfl

/-- C7 counterexample: with every one of the four listed fields in range,
construction still fails when `shutdown_wait_timeout` is negative, so
"raises iff n_workers, queue_maxsize, max_retries or poll_interval is out of
range" is false as stated. -/
theorem config_extra_constraint :
    mkEventSystemConfig "events" 5 1000 3 1 (-1) true = none ∧
    1 ≤ (5 : Int) ∧ (5 : Int) ≤ 100 ∧ 0 ≤ (1000 : Int) ∧
    0 ≤ (3 : Int) ∧ (3 : Int) ≤ 10 ∧ 1/10 ≤ (1 : ℚ) ∧ (1 : ℚ) ≤ 60 := by
  refine ⟨?_, by norm_num, by norm_num, by norm_num, by norm_num, by norm_num,
    by norm_num, by norm_num⟩
  rw [mkEventSystemConfig, if_neg]
  intro hc
  have := hc.2.2.2.2.2.2.2
  norm_num at this

/-- C7 (amended): construction with the defaults (channel "events",
n_workers 5, queue_maxsize 1000, max_retries 3, poll_interval 1,
shutdown_wait_timeout 30) succeeds, and construction raises a validation
error if and only if a supplied value is out of range: n_workers outside
1..100, queue_maxsize negative, max_retries outside 0..10, poll_interval
outside 0.1..60, or shutdown_wait_timeout negative. -/
theorem config_defaults_and_ranges :
    defaultEventSystemConfig = some
      { channel := "events", n_workers := 5, queue_maxsize := 1000,
        max_retries := 3, poll_interval := 1, shutdown_wait_timeout := 30,
        shutdown_wait_for_completion := true } ∧
    ∀ (ch : String) (n q m : Int) (p st : ℚ) (b : Bool),
      mkEventSystemConfig ch n q m p st b = none ↔
        (n < 1 ∨ 100 < n ∨ q < 0 ∨ m < 0 ∨ 10 < m ∨
         p < 1/10 ∨ 60 < p ∨ st < 0) := by
  constructor
  · rw [defaultEventSystemConfig, mkEventSystemConfig, if_pos]
    norm_num
  · intro ch n q m p st b
    constructor
    · intro hnone
      by_contra hcon
      push_neg at hcon
      obtain ⟨g1, g2, g3, g4, g5, g6, g7, g8⟩ := hcon
      rw [mkEventSystemConfig, if_pos ⟨g1, g2, g3, g4, g5, g6, g7, g8⟩] at hnone
      exact Option.some_ne_none _ hnone
    · intro hor
      rw [mkEventSystemConfig, if_neg]
      intro hc
      obtain ⟨h1, h2, h3, h4, h5, h6, h7, h8⟩ := hc
      rcases hor with h | h | h | h | h | h | h | h <;> linarith

/-- C8: a router's own prefix is ignored at direct dispatch: registering
`path` via `add_event_route` on a router with non-empty prefix `P0` makes
`handle` match events of type exactly `path` (invoking the endpoint), not
`P0 ++ "." ++ path`; and `on` registers through `add_event_route`, returning
the endpoint unchanged. -/
theorem own_prefix_ignored_on_dispatch {E P : Type} (P0 path : String)
    (endpoint : E) (payload : P) (_hP : P0 ≠ "") :
    (({ routePrefix := P0, event_handlers := [] } :
        EventRouter E).add_event_route path endpoint).handle
      ({ type := path, payload := payload } : DBEvent P) = (true, [endpoint]) ∧
    (({ routePrefix := P0, event_handlers := [] } :
        EventRouter E).add_event_route path endpoint).handle
      ({ type := P0 ++ "." ++ path, payload := payload } : DBEvent P) =
      (false, []) ∧
    ({ routePrefix := P0, event_handlers := [] } :
        EventRouter E).on path endpoint =
      (({ routePrefix := P0, event_handlers := [] } :
          EventRouter E).add_event_route path endpoint, endpoint) := by
  have hne : path ≠ P0 ++ "." ++ path := by
    intro hcontra
    have hlen := congrArg String.length hcontra
    rw [String.length_append, String.length_append] at hlen
    have hdot : ("." : String).length = 1 := rfl
    omega
  refine ⟨?_, ?_, rfl⟩
  · simp [EventRouter.handle, EventRouter.add_event_route, handleFrom]
  · simp [EventRouter.handle, EventRouter.add_event_route, handleFrom, hne]

/-- C8 witness: a concrete router with prefix "users" and a route "created"
matches type "created". -/
theorem own_prefix_ignored_on_dispatch_witness :
    (({ routePrefix := "users", event_handlers := [] } :
        EventRouter Nat).add_event_route "created" 0).handle
      ({ type := "created", payload := () } : DBEvent Unit) = (true, [0]) :=
  (own_prefix_ignored_on_dispatch "users" "created" 0 () (by decide)).1

/-- C9: `handle` invokes at most one endpoint: exactly the endpoint of the
earliest-registered route whose path equals the event's type (none when no
route matches); later routes with the same path are never invoked. -/
theorem handle_invokes_first_match_only {E P : Type} (r : EventRouter E)
    (event : DBEvent P) :
    (r.handle event).2 =
      ((r.event_handlers.find? (fun pe => pe.1 == event.type)).map
        Prod.snd).toList ∧
    (r.handle event).2.length ≤ 1 := by
  refine ⟨handleFrom_snd_eq_find r.event_handlers event.type, ?_⟩
  rw [EventRouter.handle, handleFrom_snd_eq_find]
  cases List.find? (fun pe => pe.1 == event.type) r.event_handlers <;> simp

/-- C10: the observability accessors are safe before `start()`:
`get_worker_count` returns 0 whenever the worker pool is unset, and on a
freshly constructed system `get_worker_count` is 0 and `get_queue_size` is
defined because `__init__` creates the queue. -/
theorem accessors_safe_before_start (s : EventSystem)
    (h : s.worker_pool = none) (ch : String) (n qm mr : Nat) (pi : ℚ)
    (sn : String) (ds : Bool) :
    s.get_worker_count = 0 ∧
    (EventSystem.init ch n qm mr pi sn ds).get_worker_count = 0 ∧
    ((EventSystem.init ch n qm mr pi sn ds).get_queue_size).isSome = true := by
  refine ⟨?_, rfl, rfl⟩
  simp [EventSystem.get_worker_count, h]

/-- C10 witness: the concrete freshly-constructed system. -/
theorem accessors_safe_before_start_witness :
    sysExample.get_worker_count = 0 ∧
    (EventSystem.init "events" 5 1000 3 1 "pgebus" false).get_worker_count = 0 ∧
    ((EventSystem.init "events" 5 1000 3 1 "pgebus"
        false).get_queue_size).isSome = true :=
  accessors_safe_before_start sysExample rfl "events" 5 1000 3 1 "pgebus" false
